import Mathlib

/-!
Shallow embedding of `plugins/modules/volume_action.py` (class
`VolumeActionModule`) and of the framework boundary it declares.

The module declares an `argument_spec` (volume, action, snapshot_id, status,
new_size, all_projects), a `required_if` table and `supports_check_mode=True`,
and implements `run`, `_preliminary_checks` and `_execute_volume_action`.
Argument validation (choices and `required_if`) is performed by the host
framework before `run` is invoked; its behaviour is modelled here from the
framework's documented semantics: parameters whose declared default is not
`None` are filled in before the `required_if` check, and the `required_if`
check tests key presence in the parameter dictionary.  The error wrapper of
the `OpenStackModule` base class is not part of the given sources and is
modelled from the spec (see `invoke`).
-/

namespace VolumeAction

/-- A block-storage volume resource, as returned by the cloud client. -/
structure Volume where
  id : String
  deriving DecidableEq, Repr

/-- The payload returned by a mutating SDK call.  The module discards it,
so it is modelled as an opaque string. -/
abbrev OpResult := String

/-- An error raised by the cloud platform during a dispatched operation. -/
structure PlatformError where
  msg : String
  deriving DecidableEq, Repr

/-- The caller-supplied arguments, before the framework applies defaults:
optional parameters the caller omitted are `none`.  Mirrors `argument_spec`
(volume_action.py lines 118-126): `volume` and `action` are required,
`snapshot_id` and `status` are optional strings with no default,
`new_size` is an optional bool with default `False`, and `all_projects`
is an optional bool with default `False`. -/
structure ModuleArgs where
  volume : String
  action : String
  snapshot_id : Option String
  status : Option String
  new_size : Option Bool
  all_projects : Option Bool
  deriving DecidableEq, Repr

/-- The parameter dictionary `self.params` as seen by the validation checks
and by `run`: the framework has filled in every parameter whose declared
default is not `None` (`new_size` and `all_projects`), while `snapshot_id`
and `status` keep their supplied value or stay absent (`none`). -/
structure Params where
  volume : String
  action : String
  snapshot_id : Option String
  status : Option String
  new_size : Bool
  all_projects : Bool
  deriving DecidableEq, Repr

/-- The framework's pre-validation default pass: a parameter missing from the
input whose declared default is not `None` is set to that default
(`new_size := False`, `all_projects := False`); `snapshot_id` and `status`
have default `None` and are left untouched. -/
def applyDefaults (a : ModuleArgs) : Params :=
  { volume := a.volume
    action := a.action
    snapshot_id := a.snapshot_id
    status := a.status
    new_size := a.new_size.getD false
    all_projects := a.all_projects.getD false }

/-- The `choices` list declared for `action` (line 121). -/
def actionChoices : List String := ["extend", "reset_status", "revert"]

/-- The `required_if` table declared in `module_kwargs` (lines 128-132):
triples (key, value, required parameter names). -/
def required_if : List (String × String × List String) :=
  [("action", "extend", ["new_size"]),
   ("action", "reset_status", ["status"]),
   ("action", "revert", ["snapshot_id"])]

/-- Lookup of a key's value in the parameter dictionary for the purpose of
matching a `required_if` row; only `action` is ever used as a key. -/
def paramValue (p : Params) (key : String) : Option String :=
  if key = "action" then some p.action else none

/-- Whether a key is present in the parameter dictionary at the time the
`required_if` check runs.  `volume` and `action` are required, so present;
`new_size` and `all_projects` were filled in by the default pass, so present;
`snapshot_id` and `status` are present iff the caller supplied them. -/
def paramPresent (p : Params) (key : String) : Bool :=
  if key = "volume" then true
  else if key = "action" then true
  else if key = "new_size" then true
  else if key = "all_projects" then true
  else if key = "snapshot_id" then p.snapshot_id.isSome
  else if key = "status" then p.status.isSome
  else false

/-- The framework's `required_if` check: for each row whose key currently has
the row's value, every listed parameter must be present; returns the rows
that fail, with the names still missing. -/
def missingRequiredIf (p : Params) : List (String × List String) :=
  required_if.filterMap fun r =>
    if paramValue p r.1 = some r.2.1 then
      let miss := r.2.2.filter fun n => ¬ paramPresent p n
      if miss = [] then none else some (r.2.1, miss)
    else none

/-- A call issued to the cloud client, recording the arguments actually
passed.  `get_volume` records the optional `all_projects` keyword argument
(the module passes none: line 147-149 calls
`self.conn.get_volume(self.params['volume'])` with the identifier only). -/
inductive CloudCall where
  | get_volume (name : String) (all_projects : Option Bool)
  | extend_volume (v : Volume) (new_size : Bool)
  | reset_volume_status (v : Volume) (status : Option String)
  | revert_volume_to_snapshot (v : Volume) (snapshot_id : Option String)
  deriving DecidableEq, Repr

/-- Whether a cloud call mutates platform state (everything except lookup). -/
def CloudCall.isMutating : CloudCall → Bool
  | .get_volume _ _ => false
  | _ => true

/-- The mutating calls of a trace. -/
def mutatingCalls (t : List CloudCall) : List CloudCall :=
  t.filter CloudCall.isMutating

/-- The cloud client collaborator: `conn.get_volume` and the three
`conn.block_storage` operations the module dispatches to.  Each mutating
operation either returns a payload or raises a platform error. -/
structure CloudEnv where
  get_volume : String → Option Volume
  extend_volume : Volume → Bool → Except PlatformError OpResult
  reset_volume_status : Volume → Option String → Except PlatformError OpResult
  revert_volume_to_snapshot : Volume → Option String → Except PlatformError OpResult

/-- The overall result of one invocation, tagged with the code path that
produced it: `exitJson` is `self.exit_json(changed=...)`; `configError` is
the framework's argument-validation failure (choices or `required_if`),
raised before `run`; `notFound` is the `fail_json` at line 151;
`platformError` is a platform error from the dispatched operation,
surfaced by the base-class wrapper. -/
inductive Outcome where
  | exitJson (changed : Bool)
  | configError (msg : String)
  | notFound (msg : String)
  | platformError (msg : String)
  deriving DecidableEq, Repr

/-- `_preliminary_checks` (lines 145-161): look the volume up by the
`volume` parameter alone; if the result is falsy, `fail_json` with
`'Could not find volume %s' % self.params['volume']`.  The check-mode
short-circuit at lines 152-154 is commented out in the source and hence
absent here.  Returns the trace of cloud calls and either the failure
outcome or the resolved volume. -/
def preliminary_checks (env : CloudEnv) (p : Params) :
    List CloudCall × Except Outcome Volume :=
  match env.get_volume p.volume with
  | none => ([CloudCall.get_volume p.volume none],
      Except.error (Outcome.notFound ("Could not find volume " ++ p.volume)))
  | some v => ([CloudCall.get_volume p.volume none], Except.ok v)

/-- `_execute_volume_action` (lines 163-170): dispatch on
`self.params['action']`; each branch returns the SDK call's result.  The
fall-through (no branch taken) returns Python `None`, modelled as
`Except.ok none`.  Returns the trace of cloud calls and the call's result. -/
def execute_volume_action (env : CloudEnv) (p : Params) (volume : Volume) :
    List CloudCall × Except PlatformError (Option OpResult) :=
  if p.action = "extend" then
    ([CloudCall.extend_volume volume p.new_size],
      (env.extend_volume volume p.new_size).map some)
  else if p.action = "reset_status" then
    ([CloudCall.reset_volume_status volume p.status],
      (env.reset_volume_status volume p.status).map some)
  else if p.action = "revert" then
    ([CloudCall.revert_volume_to_snapshot volume p.snapshot_id],
      (env.revert_volume_to_snapshot volume p.snapshot_id).map some)
  else ([], Except.ok none)

/-- `run` (lines 136-143): `_preliminary_checks`, then
`_execute_volume_action`, then `exit_json(changed=True)`.  A platform error
raised by the dispatched operation aborts `run`; the surrounding base-class
wrapper is applied in `invoke`.  `check_mode` is accepted but never read:
the module's check-mode handling is commented out (lines 152-154). -/
def run (env : CloudEnv) (p : Params) (_check_mode : Bool) :
    List CloudCall × Outcome :=
  match preliminary_checks env p with
  | (t, Except.error o) => (t, o)
  | (t, Except.ok volume) =>
    match execute_volume_action env p volume with
    | (t2, Except.error e) => (t ++ t2, Outcome.platformError e.msg)
    | (t2, Except.ok _) => (t ++ t2, Outcome.exitJson true)

/-- One full invocation at the framework boundary: apply parameter defaults,
check `choices` for `action`, run the `required_if` check, and only then
invoke `run`.  Modelled from the spec: the `OpenStackModule` base class
(absent from the given sources) wraps `run`, turning a platform error into
a terminal failure carrying the error's message verbatim, with no retry;
this is folded into `run`'s `platformError` outcome above.
`supports_check_mode=True` is declared (line 133), so the framework invokes
`run` in check mode as well. -/
def invoke (env : CloudEnv) (args : ModuleArgs) (check_mode : Bool) :
    List CloudCall × Outcome :=
  let p := applyDefaults args
  if p.action ∈ actionChoices then
    match missingRequiredIf p with
    | [] => run env p check_mode
    | (val, miss) :: _ =>
      ([], Outcome.configError
        ("action is " ++ val ++ " but all of the following are missing: "
          ++ String.intercalate ", " miss))
  else
    ([], Outcome.configError
      ("value of action must be one of: extend, reset_status, revert, got: "
        ++ p.action))

/-- Whether an outcome is a framework configuration failure. -/
def Outcome.isConfigError : Outcome → Bool
  | .configError _ => true
  | _ => false

/-! Concrete fixtures used to witness the theorems below. -/

/-- A concrete volume resource. -/
def V1 : Volume := ⟨"vol-1"⟩

/-- A cloud client on which `"v1"` resolves to `V1` and every mutating
operation succeeds with a distinct payload. -/
def envOk : CloudEnv :=
  { get_volume := fun n => if n = "v1" then some V1 else none
    extend_volume := fun _ _ => Except.ok "extended"
    reset_volume_status := fun _ _ => Except.ok "reset"
    revert_volume_to_snapshot := fun _ _ => Except.ok "reverted" }

/-- A cloud client on which no volume resolves. -/
def envNone : CloudEnv :=
  { get_volume := fun _ => none
    extend_volume := fun _ _ => Except.ok "extended"
    reset_volume_status := fun _ _ => Except.ok "reset"
    revert_volume_to_snapshot := fun _ _ => Except.ok "reverted" }

/-- A cloud client on which `"v1"` resolves but `extend_volume` raises a
platform error with message `"boom"`. -/
def envFail : CloudEnv :=
  { get_volume := fun n => if n = "v1" then some V1 else none
    extend_volume := fun _ _ => Except.error ⟨"boom"⟩
    reset_volume_status := fun _ _ => Except.ok "reset"
    revert_volume_to_snapshot := fun _ _ => Except.ok "reverted" }

/-- A valid extend request: `volume=v1, action=extend, new_size=true`. -/
def argsExtend : ModuleArgs :=
  { volume := "v1", action := "extend", snapshot_id := none, status := none
    new_size := some true, all_projects := none }

/-- An extend request with the companion field `new_size` absent. -/
def argsExtendNoSize : ModuleArgs :=
  { volume := "v1", action := "extend", snapshot_id := none, status := none
    new_size := none, all_projects := none }

/-- A reset_status request with the companion field `status` absent. -/
def argsResetNoStatus : ModuleArgs :=
  { volume := "v1", action := "reset_status", snapshot_id := none, status := none
    new_size := none, all_projects := none }

/-- A revert request with the companion field `snapshot_id` absent. -/
def argsRevertNoSnap : ModuleArgs :=
  { volume := "v1", action := "revert", snapshot_id := none, status := none
    new_size := none, all_projects := none }

/-- A valid extend request that additionally asks for all-projects scope. -/
def argsExtendAP : ModuleArgs :=
  { volume := "v1", action := "extend", snapshot_id := none, status := none
    new_size := some true, all_projects := some true }

/-! Helper lemmas shared by the theorems below. -/

/-- The default pass leaves `volume` untouched. -/
theorem applyDefaults_volume (a : ModuleArgs) : (applyDefaults a).volume = a.volume := rfl

/-- The default pass leaves `action` untouched. -/
theorem applyDefaults_action (a : ModuleArgs) : (applyDefaults a).action = a.action := rfl

/-- If `run` reaches `exit_json(changed=b)` then `b` is `true`. -/
theorem run_exit_changed (env : CloudEnv) (p : Params) (cm : Bool) (b : Bool)
    (h : (run env p cm).2 = Outcome.exitJson b) : b = true := by
  unfold run preliminary_checks at h
  rcases hv : env.get_volume p.volume with _ | v <;> rw [hv] at h <;> dsimp only at h
  · simp at h
  · rcases hx : execute_volume_action env p v with ⟨t2, r⟩
    rw [hx] at h
    rcases r with e | r <;> dsimp only at h
    · simp at h
    · simpa using h.symm

/-- `run` never produces a configuration error: those arise only in the
framework's validation, before `run`. -/
theorem run_not_configError (env : CloudEnv) (p : Params) (cm : Bool) :
    Outcome.isConfigError (run env p cm).2 = false := by
  unfold run preliminary_checks
  rcases hv : env.get_volume p.volume with _ | v <;> dsimp only
  · rfl
  · rcases hx : execute_volume_action env p v with ⟨t2, r⟩
    rcases r with e | r <;> dsimp only <;> rfl

/-- `run` issues at most one mutating call, and exactly one when it reaches
`exit_json(changed=True)`, provided `action` is one of the declared choices. -/
theorem run_mutating (env : CloudEnv) (p : Params) (cm : Bool)
    (hch : p.action ∈ actionChoices) :
    (mutatingCalls (run env p cm).1).length ≤ 1 ∧
    ((run env p cm).2 = Outcome.exitJson true →
      (mutatingCalls (run env p cm).1).length = 1) := by
  have hch' : p.action = "extend" ∨ p.action = "reset_status" ∨ p.action = "revert" := by
    simpa [actionChoices] using hch
  unfold run preliminary_checks execute_volume_action
  rcases hv : env.get_volume p.volume with _ | v <;> dsimp only
  · exact ⟨by simp [mutatingCalls, CloudCall.isMutating], by intro h; simp at h⟩
  · rcases hch' with h | h | h <;> simp only [h, reduceIte] <;>
      [rcases hx : env.extend_volume v p.new_size with e | r;
       rcases hx : env.reset_volume_status v p.status with e | r;
       rcases hx : env.revert_volume_to_snapshot v p.snapshot_id with e | r] <;>
      simp [mutatingCalls, CloudCall.isMutating, Except.map, List.filter]

/-! Theorems for the claims. -/

/-- Claim C1: for every invocation that passes validation and resolves a
volume `V`, the executor dispatches to exactly one cloud operation determined
by `action`: `extend` issues exactly the one call `extend_volume(V, new_size)`,
`reset_status` exactly `reset_volume_status(V, status)`, and `revert` exactly
`revert_volume_to_snapshot(V, snapshot_id)`, each passing the resolved volume
and the corresponding companion field. -/
theorem dispatch_exactly_once (env : CloudEnv) (args : ModuleArgs) (cm : Bool)
    (V : Volume)
    (hreq : missingRequiredIf (applyDefaults args) = [])
    (hvol : env.get_volume args.volume = some V) :
    (args.action = "extend" →
      mutatingCalls (invoke env args cm).1 =
        [CloudCall.extend_volume V (args.new_size.getD false)]) ∧
    (args.action = "reset_status" →
      mutatingCalls (invoke env args cm).1 =
        [CloudCall.reset_volume_status V args.status]) ∧
    (args.action = "revert" →
      mutatingCalls (invoke env args cm).1 =
        [CloudCall.revert_volume_to_snapshot V args.snapshot_id]) := by
  refine ⟨fun ha => ?_, fun ha => ?_, fun ha => ?_⟩ <;>
    · simp only [invoke, applyDefaults, actionChoices, ha, hreq] at *
      simp only [List.mem_cons, List.mem_singleton, List.not_mem_nil, or_false,
        reduceIte]
      simp only [run, preliminary_checks, execute_volume_action, applyDefaults, ha,
        hvol, hreq]
      rcases hx : env.extend_volume V (args.new_size.getD false) with e | r <;>
        rcases hy : env.reset_volume_status V args.status with e2 | r2 <;>
        rcases hz : env.revert_volume_to_snapshot V args.snapshot_id with e3 | r3 <;>
        simp [mutatingCalls, CloudCall.isMutating, Except.map, List.filter, hx, hy, hz]

/-- Claim C1 witness: on the concrete client `envOk`, the valid extend request
issues exactly the single mutating call `extend_volume(V1, true)`. -/
theorem dispatch_exactly_once_witness :
    mutatingCalls (invoke envOk argsExtend false).1 =
      [CloudCall.extend_volume V1 true] :=
  (dispatch_exactly_once envOk argsExtend false V1 (by decide) (by decide)).1 rfl

/-- Claim C2 counterexample: for `action=extend` with `new_size` absent, the
invocation does NOT fail with a configuration error and does NOT stay away
from the cloud client: the declared default `new_size=False` is filled in
before the `required_if` check, the check passes, and the executor performs
the lookup and calls `extend_volume(V1, false)`. -/
theorem required_if_extend_default_cex :
    argsExtendNoSize.action = "extend" ∧
    argsExtendNoSize.new_size = none ∧
    invoke envOk argsExtendNoSize false =
      ([CloudCall.get_volume "v1" none, CloudCall.extend_volume V1 false],
        Outcome.exitJson true) ∧
    Outcome.isConfigError (invoke envOk argsExtendNoSize false).2 = false := by
  decide

/-- Claim C2 (amended): for `action=reset_status` with `status` absent and for
`action=revert` with `snapshot_id` absent, the invocation fails with a
configuration error and issues zero calls to the cloud client; for
`action=extend` the required companion `new_size` has a declared default, so
the `required_if` check never fails and no configuration error is possible. -/
theorem required_if_missing_companion (env : CloudEnv) (args : ModuleArgs)
    (cm : Bool) :
    (args.action = "reset_status" → args.status = none →
      invoke env args cm = ([], Outcome.configError
        "action is reset_status but all of the following are missing: status")) ∧
    (args.action = "revert" → args.snapshot_id = none →
      invoke env args cm = ([], Outcome.configError
        "action is revert but all of the following are missing: snapshot_id")) ∧
    (args.action = "extend" →
      Outcome.isConfigError (invoke env args cm).2 = false) := by
  refine ⟨fun ha hs => ?_, fun ha hs => ?_, fun ha => ?_⟩
  · simp [invoke, applyDefaults, ha, hs, actionChoices, missingRequiredIf, required_if,
      paramValue, paramPresent, List.filterMap]
    decide
  · simp [invoke, applyDefaults, ha, hs, actionChoices, missingRequiredIf, required_if,
      paramValue, paramPresent, List.filterMap]
    decide
  · have hm : missingRequiredIf (applyDefaults args) = [] := by
      simp [applyDefaults, ha, missingRequiredIf, required_if, paramValue, paramPresent,
        List.filterMap]
    simp only [invoke]
    rw [if_pos (by simp [applyDefaults_action, ha, actionChoices]), hm]
    exact run_not_configError env (applyDefaults args) cm

/-- Claim C2 witness: concrete instances of all three conjuncts. -/
theorem required_if_missing_companion_witness :
    invoke envOk argsResetNoStatus false = ([], Outcome.configError
      "action is reset_status but all of the following are missing: status") ∧
    invoke envOk argsRevertNoSnap false = ([], Outcome.configError
      "action is revert but all of the following are missing: snapshot_id") ∧
    Outcome.isConfigError (invoke envOk argsExtendNoSize false).2 = false :=
  ⟨(required_if_missing_companion envOk argsResetNoStatus false).1 rfl rfl,
   (required_if_missing_companion envOk argsRevertNoSnap false).2.1 rfl rfl,
   (required_if_missing_companion envOk argsExtendNoSize false).2.2 rfl⟩

/-- Claim C3: for every request that passes validation but whose volume
identifier does not resolve, the invocation performs only the lookup, fails
with the not-found error carrying the message
`Could not find volume <identifier>`, and issues zero mutating calls. -/
theorem volume_not_found_fails (env : CloudEnv) (args : ModuleArgs) (cm : Bool)
    (hch : args.action ∈ actionChoices)
    (hreq : missingRequiredIf (applyDefaults args) = [])
    (hvol : env.get_volume args.volume = none) :
    invoke env args cm =
      ([CloudCall.get_volume args.volume none],
        Outcome.notFound ("Could not find volume " ++ args.volume)) ∧
    mutatingCalls (invoke env args cm).1 = [] := by
  have key : invoke env args cm =
      ([CloudCall.get_volume args.volume none],
        Outcome.notFound ("Could not find volume " ++ args.volume)) := by
    simp only [invoke]
    rw [if_pos (by simpa [applyDefaults_action] using hch), hreq]
    unfold run preliminary_checks
    rw [applyDefaults_volume, hvol]
  exact ⟨key, by rw [key]; rfl⟩

/-- Claim C3 witness: on a client where nothing resolves, the extend request
fails with the not-found message and no mutating call. -/
theorem volume_not_found_fails_witness :
    invoke envNone argsExtend false =
      ([CloudCall.get_volume "v1" none],
        Outcome.notFound "Could not find volume v1") ∧
    mutatingCalls (invoke envNone argsExtend false).1 = [] :=
  volume_not_found_fails envNone argsExtend false (by decide) (by decide) rfl

/-- Claim C4: evaluating the code at the failing input.  In check mode
(`check_mode = true`) the valid extend request still issues the mutating call
`extend_volume(V1, true)` — the module's check-mode short-circuit is commented
out, so dry-run does NOT skip the mutating call as the claim requires. -/
theorem check_mode_still_mutates :
    invoke envOk argsExtend true =
      ([CloudCall.get_volume "v1" none, CloudCall.extend_volume V1 true],
        Outcome.exitJson true) ∧
    mutatingCalls (invoke envOk argsExtend true).1 =
      [CloudCall.extend_volume V1 true] := by
  decide

/-- Claim C5 counterexample: with `all_projects=true` the lookup call carries
no all-projects argument at all — the module invokes
`get_volume(self.params['volume'])` with the identifier only, so the flag is
not passed to the lookup operation. -/
theorem all_projects_not_passed_cex :
    argsExtendAP.all_projects = some true ∧
    (invoke envOk argsExtendAP false).1 =
      [CloudCall.get_volume "v1" none, CloudCall.extend_volume V1 true] ∧
    CloudCall.get_volume "v1" (some true) ∉ (invoke envOk argsExtendAP false).1 := by
  decide

/-- Claim C5 (amended): `all_projects` is accepted as a parameter but never
forwarded to the lookup and never read at all: for every value of the flag
the invocation — its lookup call, its dispatched action and its result — is
identical to the invocation without the flag. -/
theorem all_projects_no_effect (env : CloudEnv) (args : ModuleArgs) (cm : Bool)
    (b : Option Bool) :
    invoke env { args with all_projects := b } cm = invoke env args cm := rfl

/-- Claim C6: whenever an invocation reports `exit_json(changed=b)`, `b` is
`true` — `changed` is never reported as `false` on success, regardless of
whether the operation actually altered the volume's state. -/
theorem changed_never_false (env : CloudEnv) (args : ModuleArgs) (cm : Bool)
    (b : Bool) (h : (invoke env args cm).2 = Outcome.exitJson b) : b = true := by
  simp only [invoke] at h
  by_cases hch : (applyDefaults args).action ∈ actionChoices
  · rw [if_pos hch] at h
    rcases hm : missingRequiredIf (applyDefaults args) with _ | ⟨⟨val, miss⟩, tl⟩ <;>
      rw [hm] at h <;> dsimp only at h
    · exact run_exit_changed env (applyDefaults args) cm b h
    · simp at h
  · rw [if_neg hch] at h
    simp at h

/-- Claim C6 witness: the successful concrete run reports `changed=true`. -/
theorem changed_never_false_witness :
    (invoke envOk argsExtend false).2 = Outcome.exitJson true ∧ true = true :=
  ⟨by decide, changed_never_false envOk argsExtend false true (by decide)⟩

/-- Claim C7: every invocation performs at most one mutating call to the
cloud platform, and exactly one whenever it succeeds with
`exit_json(changed=True)` — zero on every failure path before dispatch, so no
partial mutation is possible within a single invocation. -/
theorem at_most_one_mutating_call (env : CloudEnv) (args : ModuleArgs) (cm : Bool) :
    (mutatingCalls (invoke env args cm).1).length ≤ 1 ∧
    ((invoke env args cm).2 = Outcome.exitJson true →
      (mutatingCalls (invoke env args cm).1).length = 1) := by
  simp only [invoke]
  by_cases hch : (applyDefaults args).action ∈ actionChoices
  · rw [if_pos hch]
    rcases hm : missingRequiredIf (applyDefaults args) with _ | ⟨⟨val, miss⟩, tl⟩ <;>
      dsimp only
    · exact run_mutating env (applyDefaults args) cm hch
    · exact ⟨by simp [mutatingCalls], by intro h; simp at h⟩
  · rw [if_neg hch]
    exact ⟨by simp [mutatingCalls], by intro h; simp at h⟩

/-- Claim C7 witness: the successful concrete run has exactly one mutating
call. -/
theorem at_most_one_mutating_call_witness :
    (mutatingCalls (invoke envOk argsExtend false).1).length = 1 :=
  (at_most_one_mutating_call envOk argsExtend false).2 (by decide)

/-- Claim C8: if the dispatched cloud operation raises a platform error, the
invocation terminates as a failure carrying that error's message verbatim,
and the trace shows the operation was attempted exactly once — no retry. -/
theorem platform_error_verbatim (env : CloudEnv) (args : ModuleArgs) (cm : Bool)
    (V : Volume) (t2 : List CloudCall) (e : PlatformError)
    (hch : args.action ∈ actionChoices)
    (hreq : missingRequiredIf (applyDefaults args) = [])
    (hvol : env.get_volume args.volume = some V)
    (hop : execute_volume_action env (applyDefaults args) V = (t2, Except.error e)) :
    invoke env args cm =
      (CloudCall.get_volume args.volume none :: t2, Outcome.platformError e.msg) ∧
    t2.length = 1 := by
  constructor
  · simp only [invoke]
    rw [if_pos (by simpa [applyDefaults_action] using hch), hreq]
    unfold run preliminary_checks
    rw [applyDefaults_volume, hvol]
    dsimp only
    rw [hop]
    rfl
  · have hch' : args.action = "extend" ∨ args.action = "reset_status" ∨
        args.action = "revert" := by simpa [actionChoices] using hch
    unfold execute_volume_action at hop
    rcases hch' with h | h | h <;>
      simp only [applyDefaults_action, h, reduceIte] at hop <;>
      · injection hop with h1 h2
        rw [← h1]
        rfl

/-- Claim C8 witness: on a client whose `extend_volume` raises `"boom"`, the
invocation fails with exactly that message after one attempt. -/
theorem platform_error_verbatim_witness :
    invoke envFail argsExtend false =
      (CloudCall.get_volume "v1" none :: [CloudCall.extend_volume V1 true],
        Outcome.platformError "boom") ∧
    ([CloudCall.extend_volume V1 true] : List CloudCall).length = 1 :=
  platform_error_verbatim envFail argsExtend false V1
    [CloudCall.extend_volume V1 true] ⟨"boom"⟩ (by decide) (by decide) rfl rfl

/-- Claim C9: for a fixed action variant, the companion fields belonging to
the other variants do not influence the invocation at all: two invocations
differing only in the non-selected companion fields make identical cloud
calls and return the same result. -/
theorem companion_noninterference (env : CloudEnv) (args : ModuleArgs) (cm : Bool)
    (ns ns' : Option Bool) (st st' sn sn' : Option String) :
    (args.action = "extend" →
      invoke env { args with status := st, snapshot_id := sn } cm =
        invoke env { args with status := st', snapshot_id := sn' } cm) ∧
    (args.action = "reset_status" →
      invoke env { args with new_size := ns, snapshot_id := sn } cm =
        invoke env { args with new_size := ns', snapshot_id := sn' } cm) ∧
    (args.action = "revert" →
      invoke env { args with new_size := ns, status := st } cm =
        invoke env { args with new_size := ns', status := st' } cm) := by
  refine ⟨fun ha => ?_, fun ha => ?_, fun ha => ?_⟩ <;>
    simp [invoke, applyDefaults, ha, actionChoices, missingRequiredIf, required_if,
      paramValue, paramPresent, List.filterMap, List.filter_cons, List.filter_nil,
      run, preliminary_checks, execute_volume_action]

/-- Claim C9 witness: for the extend request, filling in `status` and
`snapshot_id` changes nothing. -/
theorem companion_noninterference_witness :
    invoke envOk
        { argsExtend with status := some "error", snapshot_id := some "snap-123" }
        false =
      invoke envOk { argsExtend with status := none, snapshot_id := none } false :=
  (companion_noninterference envOk argsExtend false none none (some "error") none
    (some "snap-123") none).1 rfl

/-- Claim C10: the value returned by the dispatched cloud operation is
discarded: for every successful invocation the reported result is exactly
`exit_json(changed=True)`, independent of the payload `r` the operation
returned. -/
theorem return_value_discarded (env : CloudEnv) (args : ModuleArgs) (cm : Bool)
    (V : Volume) (t2 : List CloudCall) (r : Option OpResult)
    (hch : args.action ∈ actionChoices)
    (hreq : missingRequiredIf (applyDefaults args) = [])
    (hvol : env.get_volume args.volume = some V)
    (hop : execute_volume_action env (applyDefaults args) V = (t2, Except.ok r)) :
    (invoke env args cm).2 = Outcome.exitJson true := by
  simp only [invoke]
  rw [if_pos (by simpa [applyDefaults_action] using hch), hreq]
  unfold run preliminary_checks
  rw [applyDefaults_volume, hvol]
  dsimp only
  rw [hop]

/-- Claim C10 witness: the concrete successful run reports `changed=true`
while the operation returned the payload `"extended"`. -/
theorem return_value_discarded_witness :
    (invoke envOk argsExtend false).2 = Outcome.exitJson true :=
  return_value_discarded envOk argsExtend false V1
    [CloudCall.extend_volume V1 true] (some "extended") (by decide) (by decide)
    rfl rfl

end VolumeAction
